import Mathlib

/-!
Verification development for the `antigravity_bot` trading worker
(`antigravity_bot.py`, class `RSIWorker`).

The engine state and per-tick behaviour are shallowly embedded:

* monetary quantities and prices are rationals (`ℚ`);
* the float values produced by the pandas RSI pipeline are modelled by `EF`,
  rationals extended with the IEEE special values `inf`, `-inf` and `NaN`
  that the pipeline can produce via division by zero;
* the worker's mutable fields become the structure `RSIWorker`, and each
  Python method becomes a pure function from the old state (plus the values
  read from the network, supplied as inputs) to the new state together with a
  list of emitted `Act`s (log lines, GUI messages, orders);
* Python exceptions caught by the surrounding `try`/`except` blocks are
  modelled by the branch the handler produces (state unchanged, error logged).

Display-only payloads (formatted strings, the chart dataframe, the
`total_asset` / `signed_change_rate` numbers carried by the status signal)
are not modelled: they are recomputed from the same values each tick and
never feed back into the engine state or the trading decision.
-/

/-- Extended value domain for the pandas RSI pipeline: a rational, or one of
the IEEE special values `+inf`, `-inf`, `NaN` that elementwise float division
can produce.  Signed zero is not distinguished; it is unobservable in the
operations used by `_calculate_rsi_from_df`. -/
inductive EF where
  | nan : EF
  | inf : EF
  | ninf : EF
  | fin : ℚ → EF
deriving DecidableEq, Repr

/-- IEEE addition on `EF` (as performed by pandas on float series). -/
def EF.add : EF → EF → EF
  | .nan, _ => .nan
  | _, .nan => .nan
  | .inf, .ninf => .nan
  | .ninf, .inf => .nan
  | .inf, _ => .inf
  | _, .inf => .inf
  | .ninf, _ => .ninf
  | _, .ninf => .ninf
  | .fin a, .fin b => .fin (a + b)

/-- IEEE negation on `EF`. -/
def EF.neg : EF → EF
  | .nan => .nan
  | .inf => .ninf
  | .ninf => .inf
  | .fin a => .fin (-a)

/-- IEEE subtraction on `EF`. -/
def EF.sub (x y : EF) : EF := EF.add x (EF.neg y)

/-- IEEE division on `EF`: `x / 0` is `±inf` for finite nonzero `x` and `NaN`
for `x = 0`, exactly the behaviour of pandas elementwise float division used
for `rs = avg_gain / avg_loss`. -/
def EF.div : EF → EF → EF
  | .nan, _ => .nan
  | _, .nan => .nan
  | .inf, .inf => .nan
  | .inf, .ninf => .nan
  | .ninf, .inf => .nan
  | .ninf, .ninf => .nan
  | .inf, .fin b => if b < 0 then .ninf else .inf
  | .ninf, .fin b => if b < 0 then .inf else .ninf
  | .fin _, .inf => .fin 0
  | .fin _, .ninf => .fin 0
  | .fin a, .fin b =>
      if b = 0 then (if a = 0 then .nan else if 0 < a then .inf else .ninf)
      else .fin (a / b)

/-- Python comparison `x <= q` on a float `x`: `NaN <= q` and `inf <= q` are
`False`, `-inf <= q` is `True`.  Used for the entry test `rsi <= rsi_entry`. -/
def EF.leq : EF → ℚ → Bool
  | .nan, _ => false
  | .inf, _ => false
  | .ninf, _ => true
  | .fin a, q => decide (a ≤ q)

/-- Last element of `xs.rolling(window := w, min_periods := w).mean()`:
`NaN` when the series is shorter than `w`, otherwise the mean of the last `w`
entries. -/
def rollingMeanLast (w : ℕ) (xs : List ℚ) : EF :=
  if xs.length < w then EF.nan
  else EF.fin ((xs.drop (xs.length - w)).sum / (w : ℚ))

/-- `df['close'].diff(1)` without its leading `NaN`: successive differences
`closes[i+1] - closes[i]`. -/
def deltasOf (closes : List ℚ) : List ℚ :=
  List.zipWith (fun a b => a - b) closes.tail closes

/-- `delta.where(delta > 0, 0)`: the positive deltas, other positions 0.  The
leading `NaN` of `diff(1)` fails the `> 0` test and becomes the leading 0. -/
def gainsOf (closes : List ℚ) : List ℚ :=
  0 :: (deltasOf closes).map (fun d => if 0 < d then d else 0)

/-- `-delta.where(delta < 0, 0)`: the negated negative deltas, other
positions 0, with the leading `NaN` again replaced by 0. -/
def lossesOf (closes : List ℚ) : List ℚ :=
  0 :: (deltasOf closes).map (fun d => if d < 0 then -d else 0)

/-- `RSIWorker._calculate_rsi_from_df` (lines 231-244), as a function of the
closing prices of the candle dataframe.  The rolling window is the hard-coded
`14` of the source, not `self.rsi_period`.  On an empty series `.iloc[-1]`
raises `IndexError` and the `except` clause returns `0.0`; on a non-empty
series no exception occurs and the last element of the elementwise float
computation `100 - 100 / (1 + avg_gain / avg_loss)` is returned, including
the IEEE `inf`/`NaN` propagation. -/
def calculate_rsi_from_df (closes : List ℚ) : EF :=
  if closes.length = 0 then EF.fin 0
  else
    let rs := EF.div (rollingMeanLast 14 (gainsOf closes)) (rollingMeanLast 14 (lossesOf closes))
    EF.sub (EF.fin 100) (EF.div (EF.fin 100) (EF.add (EF.fin 1) rs))

/-- Why a sell was triggered (the two `reason` strings of the sell logic). -/
inductive Reason where
  | takeProfit : Reason
  | stopLoss : Reason
deriving DecidableEq, Repr

/-- Externally observable effects of one tick / one method call: emitted log
lines (`log_signal`), status tuples (`status_signal`), short status messages
(`msg_signal`) and orders sent to the exchange.  Formatted-string payloads are
reduced to the numeric values they interpolate. -/
inductive Act where
  | statusUpdate (price : ℚ) (rsi : EF)
  | simBuy (price qty : ℚ)
  | liveBuy (amount : ℚ)
  | simSell (reason : Reason) (proceeds : ℚ)
  | liveSell (reason : Reason) (qty : ℚ)
  | msgInsufficient
  | msgWatch
  | msgHolding (profitRate avgPrice : ℚ)
  | msgCooldownRemaining (untilTime : ℕ)
  | msgCooldownOver
  | logLossCount (n : ℕ)
  | logCooldownStart
  | logProfitReset
  | logCandleFail
  | logError
  | msgPriceFail
  | msgKrwShort
  | logOrderDone
  | msgOrderFail
  | msgNoApiKey
deriving DecidableEq, Repr

/-- Is this action a market buy (simulated or live)? -/
def Act.isBuy : Act → Bool
  | .simBuy _ _ => true
  | .liveBuy _ => true
  | _ => false

/-- Is this action a market sell (simulated or live)? -/
def Act.isSell : Act → Bool
  | .simSell _ _ => true
  | .liveSell _ _ => true
  | _ => false

/-- Is this action the "holding" status message emitted at the top of the
sell branch? -/
def Act.isHoldingMsg : Act → Bool
  | .msgHolding _ _ => true
  | _ => false

/-- Number of buy orders in an action list. -/
def countBuys (l : List Act) : ℕ := (l.filter Act.isBuy).length

/-- Number of sell orders in an action list. -/
def countSells (l : List Act) : ℕ := (l.filter Act.isSell).length

/-- Whether the action list contains the "holding" status message. -/
def hasHoldingMsg (l : List Act) : Bool := l.any Act.isHoldingMsg

/-- The reasons of the sell orders in an action list, in order. -/
def sellReasons (l : List Act) : List Reason :=
  l.filterMap fun a => match a with
    | .simSell r _ => some r
    | .liveSell r _ => some r
    | _ => none

/-- The mutable fields of the Python `RSIWorker` that the trading logic reads
or writes (`__init__`, lines 35-66).  `hasUpbit` models `self.upbit is not
None`; the API-key strings are kept only because `update_settings` stores
them.  The unused fields `self.avg_buy_price` / `self.balance` (lines 59-60)
are written nowhere after `__init__` and are omitted. -/
structure RSIWorker where
  running : Bool
  autoActive : Bool
  simulationMode : Bool
  hasUpbit : Bool
  ticker : String
  rsiPeriod : ℕ
  roiTarget : ℚ
  roiStop : ℚ
  rsiEntry : ℚ
  amount : ℚ
  accessKey : String
  secretKey : String
  simBalanceKrw : ℚ
  simBalanceCoin : ℚ
  simAvgBuyPrice : ℚ
  lossCount : ℕ
  maxLossCount : ℕ
  cooldownMinutes : ℕ
  cooldownEndTime : Option ℕ
deriving DecidableEq, Repr

/-- The state set up by `RSIWorker.__init__` (lines 35-66). -/
def initialWorker : RSIWorker :=
  { running := true
    autoActive := false
    simulationMode := false
    hasUpbit := false
    ticker := "KRW-BTC"
    rsiPeriod := 14
    roiTarget := 1/2
    roiStop := -3
    rsiEntry := 25
    amount := 100000
    accessKey := ""
    secretKey := ""
    simBalanceKrw := 10000000
    simBalanceCoin := 0
    simAvgBuyPrice := 0
    lossCount := 0
    maxLossCount := 0
    cooldownMinutes := 30
    cooldownEndTime := none }

/-- Balances returned by the exchange in live mode
(`upbit.get_balance("KRW")`, `upbit.get_balance(ticker)`,
`upbit.get_avg_buy_price(ticker)`): inputs of a tick, not engine state. -/
structure LiveBalances where
  krw : ℚ
  coin : ℚ
  avgBuyPrice : ℚ
deriving DecidableEq, Repr

/-- `RSIWorker.update_settings` (lines 68-82): every supplied value is
assigned to the corresponding field, with no validation.  The exchange client
is (re)created only when not in simulation mode and both key strings are
non-empty (Python truthiness of `str`); otherwise `self.upbit` keeps its
previous value. -/
def update_settings (s : RSIWorker) (ticker : String) (rsiEntry roiTarget roiStop amount : ℚ)
    (access secret : String) (simulation : Bool) (maxLoss cooldown : ℕ) : RSIWorker :=
  { s with
    ticker := ticker
    rsiEntry := rsiEntry
    roiTarget := roiTarget
    roiStop := roiStop
    amount := amount
    accessKey := access
    secretKey := secret
    simulationMode := simulation
    maxLossCount := maxLoss
    cooldownMinutes := cooldown
    hasUpbit :=
      if simulation = false ∧ access ≠ "" ∧ secret ≠ "" then true else s.hasUpbit }

/-- `RSIWorker._process_auto_trading` (lines 249-342).  `live` carries the
exchange balances queried in live mode; `now` is the current time in minutes
(used only to set `cooldown_end_time = now + cooldown_minutes`).  The
simulated buy divides by `current_price`; with `current_price = 0` Python
raises `ZeroDivisionError` before any field is mutated and the surrounding
`except` logs the error, which is modelled by the `logError` branch. -/
def processAutoTrading (s : RSIWorker) (live : LiveBalances) (price : ℚ) (rsi : EF)
    (now : ℕ) : RSIWorker × List Act :=
  -- 0. Check Balance
  let krw_balance := if s.simulationMode then s.simBalanceKrw else live.krw
  let coin_balance := if s.simulationMode then s.simBalanceCoin else live.coin
  let avg_buy_price := if s.simulationMode then s.simAvgBuyPrice else live.avgBuyPrice
  let is_holding : Bool :=
    if s.simulationMode then decide (0 < coin_balance)
    else decide (5000 ≤ coin_balance * price)
  if is_holding = false then
    -- 1. Buy Logic (If not holding)
    if rsi.leq s.rsiEntry then
      if s.amount ≤ krw_balance then
        if s.simulationMode then
          if price = 0 then (s, [Act.logError])
          else
            let buy_amt := s.amount / price
            ({ s with
                simBalanceCoin := s.simBalanceCoin + buy_amt
                simBalanceKrw := s.simBalanceKrw - s.amount
                simAvgBuyPrice := price },
             [Act.simBuy price buy_amt])
        else (s, [Act.liveBuy s.amount])
      else (s, [Act.msgInsufficient])
    else (s, [Act.msgWatch])
  else
    -- 2. Sell Logic (If holding)
    let profit_rate := if 0 < avg_buy_price then (price - avg_buy_price) / avg_buy_price * 100 else 0
    let holdMsg := Act.msgHolding profit_rate avg_buy_price
    if 0 < avg_buy_price then
      let sellTP : Bool := decide (s.roiTarget ≤ profit_rate)
      let sellSL : Bool := decide (profit_rate ≤ s.roiStop)
      if sellTP || sellSL then
        let reason := if sellTP then Reason.takeProfit else Reason.stopLoss
        let s1 :=
          if s.simulationMode then
            { s with
                simBalanceKrw := s.simBalanceKrw + coin_balance * price
                simBalanceCoin := 0
                simAvgBuyPrice := 0 }
          else s
        let sellAct :=
          if s.simulationMode then Act.simSell reason (coin_balance * price)
          else Act.liveSell reason coin_balance
        -- Update Consecutive Loss Logic
        if sellSL then
          let s2 := { s1 with lossCount := s1.lossCount + 1 }
          if 0 < s.maxLossCount ∧ s.maxLossCount ≤ s2.lossCount then
            ({ s2 with cooldownEndTime := some (now + s.cooldownMinutes) },
             [holdMsg, sellAct, Act.logLossCount s2.lossCount, Act.logCooldownStart])
          else (s2, [holdMsg, sellAct, Act.logLossCount s2.lossCount])
        else
          ({ s1 with lossCount := 0 },
           holdMsg :: sellAct :: (if 0 < s.lossCount then [Act.logProfitReset] else []))
      else (s, [holdMsg])
    else (s, [holdMsg])

/-- `RSIWorker.buy_now` (lines 344-377).  `cp` is the value returned by
`pyupbit.get_current_price` (`none` models `None`); `liveKrw` is the KRW
balance queried in live mode and `orderOk` whether the order response is a
dict containing `uuid`.  In simulation mode the guard is only the Python
truthiness of the price (`if current_price:`); NO balance check is performed
before `sim_balance_krw -= amount`, and `sim_avg_buy_price` is overwritten
with the fill price regardless of any coins already held. -/
def buy_now (s : RSIWorker) (cp : Option ℚ) (liveKrw : ℚ) (orderOk : Bool) :
    RSIWorker × List Act :=
  if s.simulationMode then
    match cp with
    | some p =>
        if p = 0 then (s, [Act.msgPriceFail])
        else
          ({ s with
              simBalanceCoin := s.simBalanceCoin + s.amount / p
              simBalanceKrw := s.simBalanceKrw - s.amount
              simAvgBuyPrice := p },
           [Act.simBuy p (s.amount / p)])
    | none => (s, [Act.msgPriceFail])
  else if s.hasUpbit then
    if liveKrw < s.amount then (s, [Act.msgKrwShort])
    else (s, [Act.liveBuy s.amount, if orderOk then Act.logOrderDone else Act.msgOrderFail])
  else (s, [Act.msgNoApiKey])

/-- Outcome of the price fetch at the top of `run` (lines 98-111): either the
direct `/v1/ticker` call returns HTTP 200 with a trade price and signed
change rate, or the `pyupbit.get_current_price` fallback is consulted, which
may itself return `None` (leaving `current_price` at its initial `0.0`). -/
inductive PriceFetch where
  | primary (tradePrice changeRate : ℚ)
  | fallback (cp : Option ℚ)
deriving DecidableEq, Repr

/-- The `current_price` local after the fetch block. -/
def priceOf : PriceFetch → ℚ
  | .primary p _ => p
  | .fallback (some cp) => cp
  | .fallback none => 0

/-- External inputs consumed by one iteration of `RSIWorker.run`: the ticker
fetch outcome, the candle fetch outcome (`none` models `get_ohlcv` returning
`None`, or equivalently an exception thrown by the candle fetch — both leave
`rsi` at 0.0), the live balances (read only in live mode) and the current
time in minutes. -/
structure TickInput where
  fetch : PriceFetch
  candles : Option (List ℚ)
  live : LiveBalances
  now : ℕ
deriving DecidableEq, Repr

/-- The `rsi` local of `run` after the fetch block (lines 113-119): computed
from the candles when the dataframe is present, otherwise left at the
initialised `0.0` — NOT treated as unavailable. -/
def rsiOf (inp : TickInput) : EF :=
  match inp.candles with
  | some closes => calculate_rsi_from_df closes
  | none => EF.fin 0

/-- The two status emissions of `run`: line 145 guarded by
`current_price > 0` and line 186 guarded by Python truthiness
(`current_price != 0`). -/
def statusActs (price : ℚ) (rsi : EF) : List Act :=
  (if 0 < price then [Act.statusUpdate price rsi] else []) ++
  (if price ≠ 0 then [Act.statusUpdate price rsi] else [])

/-- The warning logged when `get_ohlcv` returns `None` (line 119). -/
def candleLog (inp : TickInput) : List Act :=
  match inp.candles with
  | some _ => []
  | none => [Act.logCandleFail]

/-- One iteration of the `while self.running` loop of `RSIWorker.run`
(lines 87-229), as a function of the previous state and the tick's inputs.

The first guard models lines 124-127: in simulation mode with coins held the
display profit computation divides by `sim_avg_buy_price`; when that is 0 the
`ZeroDivisionError` reaches the outer handler (line 224) and the whole tick
is abandoned with no state change and no emission.

The chart-tick fetch (lines 148-166) reads no engine state and writes none;
its `data_signal` emission is omitted.  After the status emissions the auto
trading block (lines 201-222) first handles the cooldown: while
`now < cooldown_end_time` the decision step is skipped entirely
(`continue`); once `now` has reached it, the cooldown is cleared,
`loss_count` reset to 0, and the decision step runs in the same iteration. -/
def tick (s : RSIWorker) (inp : TickInput) : RSIWorker × List Act :=
  if s.simulationMode = true ∧ 0 < s.simBalanceCoin ∧ s.simAvgBuyPrice = 0 then (s, [])
  else
    let price := priceOf inp.fetch
    let rsi := rsiOf inp
    let pre := candleLog inp ++ statusActs price rsi
    if s.autoActive = true then
      match s.cooldownEndTime with
      | some t =>
          if inp.now < t then (s, pre ++ [Act.msgCooldownRemaining t])
          else
            let s1 := { s with cooldownEndTime := none, lossCount := 0 }
            if s1.hasUpbit = true ∨ s1.simulationMode = true then
              let r := processAutoTrading s1 inp.live price rsi inp.now
              (r.1, pre ++ Act.msgCooldownOver :: r.2)
            else (s1, pre ++ [Act.msgCooldownOver])
      | none =>
          if s.hasUpbit = true ∨ s.simulationMode = true then
            let r := processAutoTrading s inp.live price rsi inp.now
            (r.1, pre ++ r.2)
          else (s, pre)
    else (s, pre)

/-- Folding `tick` over a list of tick inputs: the engine run with fixed
settings (no `update_settings` call in between). -/
def runTicks (s : RSIWorker) : List TickInput → RSIWorker
  | [] => s
  | inp :: rest => runTicks (tick s inp).1 rest

/-- The cooldown invariant of the spec: whenever `cooldown_end_time` is set,
the consecutive-loss limit is enabled and has been reached. -/
def CooldownInv (s : RSIWorker) : Prop :=
  ∀ t : ℕ, s.cooldownEndTime = some t → 0 < s.maxLossCount ∧ s.maxLossCount ≤ s.lossCount

instance (s : RSIWorker) : Decidable (CooldownInv s) := by
  unfold CooldownInv
  cases h : s.cooldownEndTime with
  | none => exact isTrue (by simp [h])
  | some t =>
      refine decidable_of_iff (0 < s.maxLossCount ∧ s.maxLossCount ≤ s.lossCount) ?_
      constructor
      · intro hp u hu
        exact hp
      · intro hp
        exact hp t rfl

/-- Worker state for the C1 failing input: simulation mode, auto trading
enabled, otherwise the `__init__` defaults (flat wallet, `rsi_entry = 25`,
`amount = 100000`). -/
def c1State : RSIWorker := { initialWorker with autoActive := true, simulationMode := true }

/-- Tick input for the C1 failing input: the ticker fetch succeeds with price
100, but `get_ohlcv` returns `None`. -/
def c1Input : TickInput :=
  { fetch := PriceFetch.primary 100 0, candles := none, live := ⟨0, 0, 0⟩, now := 0 }

/-- A strictly increasing closing-price series of length 15. -/
def c2IncSeries : List ℚ := [1, 2, 3, 4, 5, 6, 7, 8, 9, 10, 11, 12, 13, 14, 15]

/-- Worker state for the C5 witness: simulation defaults, flat wallet. -/
def w5State : RSIWorker := { initialWorker with simulationMode := true, autoActive := true }

/-- Worker state for the C6 witness: holding 1 coin at average cost 100, with
`roi_target = roi_stop = 0` so that at price 100 both exit conditions hold. -/
def w6State : RSIWorker :=
  { initialWorker with
      simulationMode := true, roiTarget := 0, roiStop := 0,
      simBalanceCoin := 1, simAvgBuyPrice := 100 }

/-- Tick input for the C7 witness. -/
def w7Input : TickInput :=
  { fetch := PriceFetch.primary 100 0, candles := none, live := ⟨0, 0, 0⟩, now := 0 }

/-- Worker state for the C8 witness: cooling until minute 10 after two
consecutive stop losses with a limit of 2. -/
def w8State : RSIWorker :=
  { initialWorker with
      autoActive := true, simulationMode := true, maxLossCount := 2, lossCount := 2,
      cooldownEndTime := some 10 }

/-- Tick input for the C8 witness: minute 5, still inside the cooldown. -/
def w8Input : TickInput :=
  { fetch := PriceFetch.primary 100 0, candles := none, live := ⟨0, 0, 0⟩, now := 5 }

/-- Worker state for the C10 witness: 50,000 KRW but `amount = 100000`, and
already holding 2 coins bought at average cost 7. -/
def w10State : RSIWorker :=
  { initialWorker with
      simulationMode := true, simBalanceKrw := 50000, simBalanceCoin := 2,
      simAvgBuyPrice := 7, amount := 100000 }

/-- The simulated buy branch of `_process_auto_trading`: flat, entry signal,
sufficient balance.  The whole order amount is spent at the current price. -/
theorem processAutoTrading_sim_buy (s : RSIWorker) (live : LiveBalances) (price r : ℚ) (now : ℕ)
    (hsim : s.simulationMode = true) (hflat : s.simBalanceCoin ≤ 0)
    (hrsi : r ≤ s.rsiEntry) (hbal : s.amount ≤ s.simBalanceKrw) (hp : price ≠ 0) :
    processAutoTrading s live price (EF.fin r) now =
      ({ s with simBalanceCoin := s.simBalanceCoin + s.amount / price,
                simBalanceKrw := s.simBalanceKrw - s.amount,
                simAvgBuyPrice := price },
       [Act.simBuy price (s.amount / price)]) := by
  simp [processAutoTrading, hsim, EF.leq, hrsi, hbal, hp, not_lt.mpr hflat]

/-- The simulated sell branch of `_process_auto_trading`: holding with
positive average cost and an exit condition satisfied.  The whole position is
sold at the current price and the ledger returns to flat. -/
theorem processAutoTrading_sim_sell (s : RSIWorker) (live : LiveBalances) (price : ℚ)
    (rsi : EF) (now : ℕ)
    (hsim : s.simulationMode = true) (hhold : 0 < s.simBalanceCoin)
    (havg : 0 < s.simAvgBuyPrice)
    (hsell : s.roiTarget ≤ (price - s.simAvgBuyPrice) / s.simAvgBuyPrice * 100 ∨
             (price - s.simAvgBuyPrice) / s.simAvgBuyPrice * 100 ≤ s.roiStop) :
    (processAutoTrading s live price rsi now).1.simBalanceKrw =
      s.simBalanceKrw + s.simBalanceCoin * price ∧
    (processAutoTrading s live price rsi now).1.simBalanceCoin = 0 ∧
    (processAutoTrading s live price rsi now).1.simAvgBuyPrice = 0 := by
  rcases hsell with h | h
  · simp [processAutoTrading, hsim, hhold, havg, h]
    by_cases h2 : (price - s.simAvgBuyPrice) / s.simAvgBuyPrice * 100 ≤ s.roiStop <;>
      simp [h2] <;> split <;> simp
  · by_cases h1 : s.roiTarget ≤ (price - s.simAvgBuyPrice) / s.simAvgBuyPrice * 100 <;>
      simp [processAutoTrading, hsim, hhold, havg, h, h1] <;> split <;> simp

theorem countSells_append (l1 l2 : List Act) :
    countSells (l1 ++ l2) = countSells l1 + countSells l2 := by
  simp [countSells, List.filter_append]

theorem countBuys_append (l1 l2 : List Act) :
    countBuys (l1 ++ l2) = countBuys l1 + countBuys l2 := by
  simp [countBuys, List.filter_append]

theorem countSells_cons (a : Act) (l : List Act) :
    countSells (a :: l) = (if a.isSell then 1 else 0) + countSells l := by
  simp only [countSells, List.filter_cons]
  split_ifs <;> simp_all [Nat.add_comm]

theorem countBuys_cons (a : Act) (l : List Act) :
    countBuys (a :: l) = (if a.isBuy then 1 else 0) + countBuys l := by
  simp only [countBuys, List.filter_cons]
  split_ifs <;> simp_all [Nat.add_comm]

theorem countSells_nil : countSells [] = 0 := rfl

theorem countBuys_nil : countBuys [] = 0 := rfl

theorem countSells_candleLog (inp : TickInput) : countSells (candleLog inp) = 0 := by
  cases h : inp.candles <;> simp [candleLog, h, countSells, Act.isSell]

theorem countBuys_candleLog (inp : TickInput) : countBuys (candleLog inp) = 0 := by
  cases h : inp.candles <;> simp [candleLog, h, countBuys, Act.isBuy]

theorem countSells_statusActs (p : ℚ) (r : EF) : countSells (statusActs p r) = 0 := by
  by_cases hp : 0 < p <;> by_cases hq : p = 0 <;>
    simp [statusActs, hp, hq, countSells, Act.isSell]

theorem countBuys_statusActs (p : ℚ) (r : EF) : countBuys (statusActs p r) = 0 := by
  by_cases hp : 0 < p <;> by_cases hq : p = 0 <;>
    simp [statusActs, hp, hq, countBuys, Act.isBuy]

set_option maxHeartbeats 1000000 in
/-- A decision step that issues no sell leaves the consecutive-loss counter
and the cooldown timestamp untouched. -/
theorem processAutoTrading_no_sell (s : RSIWorker) (live : LiveBalances) (price : ℚ)
    (rsi : EF) (now : ℕ)
    (h : countSells (processAutoTrading s live price rsi now).2 = 0) :
    (processAutoTrading s live price rsi now).1.lossCount = s.lossCount ∧
    (processAutoTrading s live price rsi now).1.cooldownEndTime = s.cooldownEndTime := by
  simp only [processAutoTrading] at h ⊢
  split_ifs at h ⊢ <;> simp_all [countSells, Act.isSell]

theorem processAutoTrading_maxLossCount (s : RSIWorker) (live : LiveBalances) (price : ℚ)
    (rsi : EF) (now : ℕ) :
    (processAutoTrading s live price rsi now).1.maxLossCount = s.maxLossCount := by
  simp only [processAutoTrading]
  split_ifs <;> rfl

/-- A decision step starting with no cooldown set establishes the cooldown
invariant: it sets `cooldown_end_time` only together with
`0 < max_loss_count ≤ loss_count`. -/
theorem processAutoTrading_cooldownInv (s : RSIWorker) (live : LiveBalances) (price : ℚ)
    (rsi : EF) (now : ℕ) (hnone : s.cooldownEndTime = none) :
    CooldownInv (processAutoTrading s live price rsi now).1 := by
  intro t ht
  simp only [processAutoTrading] at ht ⊢
  split_ifs at ht with h1 h2 h3 h4 h5 h6 h7 h8 <;> simp_all [CooldownInv]

theorem tick_maxLossCount (s : RSIWorker) (inp : TickInput) :
    (tick s inp).1.maxLossCount = s.maxLossCount := by
  by_cases habort : s.simulationMode = true ∧ 0 < s.simBalanceCoin ∧ s.simAvgBuyPrice = 0
  · simp [tick, habort]
  · by_cases hact : s.autoActive = true
    · cases hcd : s.cooldownEndTime with
      | none =>
          by_cases hup : s.hasUpbit = true ∨ s.simulationMode = true
          all_goals simp [tick, habort, hact, hcd, hup, processAutoTrading_maxLossCount]
      | some t =>
          by_cases hnow : inp.now < t
          · simp [tick, habort, hact, hcd, hnow]
          · by_cases hup : s.hasUpbit = true ∨ s.simulationMode = true
            all_goals simp [tick, habort, hact, hcd, hnow, hup, processAutoTrading_maxLossCount]
    · simp [tick, habort, hact]

theorem runTicks_maxLossCount (s : RSIWorker) (inps : List TickInput) :
    (runTicks s inps).maxLossCount = s.maxLossCount := by
  induction inps generalizing s with
  | nil => rfl
  | cons i rest ih => rw [runTicks, ih, tick_maxLossCount]

/-- One engine tick preserves the cooldown invariant. -/
theorem tick_cooldownInv (s : RSIWorker) (inp : TickInput) (hinv : CooldownInv s) :
    CooldownInv (tick s inp).1 := by
  by_cases habort : s.simulationMode = true ∧ 0 < s.simBalanceCoin ∧ s.simAvgBuyPrice = 0
  · simpa [tick, habort] using hinv
  · by_cases hact : s.autoActive = true
    · cases hcd : s.cooldownEndTime with
      | none =>
          by_cases hup : s.hasUpbit = true ∨ s.simulationMode = true
          · simpa [tick, habort, hact, hcd, hup] using
              processAutoTrading_cooldownInv s inp.live (priceOf inp.fetch) (rsiOf inp) inp.now hcd
          · simpa [tick, habort, hact, hcd, hup] using hinv
      | some t =>
          by_cases hnow : inp.now < t
          · simpa [tick, habort, hact, hcd, hnow] using hinv
          · by_cases hup : s.hasUpbit = true ∨ s.simulationMode = true
            · simpa [tick, habort, hact, hcd, hnow, hup] using
                processAutoTrading_cooldownInv
                  { s with cooldownEndTime := none, lossCount := 0 }
                  inp.live (priceOf inp.fetch) (rsiOf inp) inp.now rfl
            · intro u hu
              simp [tick, habort, hact, hcd, hnow, hup] at hu
    · simpa [tick, habort, hact] using hinv

/-- C1: the spec requires that when the candle fetch fails the RSI is treated
as unavailable and the trading decision is skipped; the code instead leaves
`rsi` at the default `0.0` (line 118) and still runs `_process_auto_trading`,
where `0.0 <= rsi_entry` holds, so a market buy is issued.  Concretely: auto
trading on, simulation mode, flat wallet of 10,000,000 KRW, ticker price 100,
`get_ohlcv` returning `None` — the tick logs the candle failure, reports the
status with rsi 0, and buys 1000 coins for the full 100,000 KRW order
amount. -/
theorem c1_candle_failure_buys :
    c1Input.candles = none ∧
    rsiOf c1Input = EF.fin 0 ∧
    tick c1State c1Input =
      ({ c1State with simBalanceCoin := 1000, simBalanceKrw := 9900000, simAvgBuyPrice := 100 },
       [Act.logCandleFail, Act.statusUpdate 100 (EF.fin 0), Act.statusUpdate 100 (EF.fin 0),
        Act.simBuy 100 1000]) := by
  refine ⟨rfl, rfl, ?_⟩
  norm_num [tick, processAutoTrading, statusActs, candleLog, priceOf, rsiOf, c1State, c1Input,
    initialWorker, EF.leq]

/-- C2 counterexample: for the flat series of fifteen 1s the average loss
over the 14-window is 0, yet `_calculate_rsi_from_df` returns `NaN`
(`0/0` propagated through the float pipeline), not 100 — there is no explicit
`avgLoss == 0` branch. -/
theorem c2_flat_series_nan :
    rollingMeanLast 14 (lossesOf (List.replicate 15 (1:ℚ))) = EF.fin 0 ∧
    calculate_rsi_from_df (List.replicate 15 (1:ℚ)) = EF.nan ∧ EF.nan ≠ EF.fin 100 := by
  refine ⟨?_, ?_, by simp⟩ <;>
    norm_num [calculate_rsi_from_df, rollingMeanLast, gainsOf, lossesOf, deltasOf,
      EF.div, EF.add, EF.sub, EF.neg, List.replicate, List.zipWith]

/-- C2 (amended): for a closing-price series of length at least 15 whose
average loss over the 14-window is 0, the RSI computation returns exactly 100
when the average gain is positive (strictly increasing series) — via IEEE
division-by-zero/`inf` passthrough, not an explicit branch — and returns
`NaN` when the average gain is also 0 (flat series). -/
theorem c2_avgloss_zero (closes : List ℚ) (g : ℚ)
    (hlen : 15 ≤ closes.length)
    (hg : rollingMeanLast 14 (gainsOf closes) = EF.fin g)
    (hl : rollingMeanLast 14 (lossesOf closes) = EF.fin 0) :
    (0 < g → calculate_rsi_from_df closes = EF.fin 100) ∧
    (g = 0 → calculate_rsi_from_df closes = EF.nan) := by
  have hne : ¬ closes.length = 0 := by omega
  constructor
  · intro hgpos
    simp [calculate_rsi_from_df, hne, hg, hl, EF.div, EF.add, EF.sub, EF.neg, hgpos, hgpos.ne']
  · intro hg0
    subst hg0
    simp [calculate_rsi_from_df, hne, hg, hl, EF.div, EF.add, EF.sub, EF.neg]

/-- C2 witness: the strictly increasing series 1..15 has average gain 1 and
average loss 0 over the window, and its RSI evaluates to exactly 100. -/
theorem c2_witness :
    calculate_rsi_from_df c2IncSeries = EF.fin 100 :=
  (c2_avgloss_zero c2IncSeries 1
      (by norm_num [c2IncSeries])
      (by norm_num [c2IncSeries, rollingMeanLast, gainsOf, deltasOf, List.zipWith])
      (by norm_num [c2IncSeries, rollingMeanLast, lossesOf, deltasOf, List.zipWith])).1
    (by norm_num)

/-- C3 counterexample: applying a configuration with the invalid order amount
−1 does not fail and does not leave the prior configuration intact —
`update_settings` stores −1 where the prior amount was 100000. -/
theorem c3_invalid_config_applied :
    (update_settings initialWorker "KRW-BTC" 25 (1/2) (-3) (-1) "" "" true 0 30).amount = -1 ∧
    initialWorker.amount = 100000 := by
  constructor <;> rfl

/-- C3 (amended): `update_settings` performs no validation at all — every
supplied value, valid or not (negative amount, out-of-range entry threshold,
empty ticker), unconditionally replaces the previous configuration and is
what the trading loop subsequently uses. -/
theorem c3_no_validation (s : RSIWorker) (ticker : String)
    (rsiEntry roiTarget roiStop amount : ℚ) (access secret : String) (simulation : Bool)
    (maxLoss cooldown : ℕ) :
    (update_settings s ticker rsiEntry roiTarget roiStop amount access secret simulation
        maxLoss cooldown).ticker = ticker ∧
    (update_settings s ticker rsiEntry roiTarget roiStop amount access secret simulation
        maxLoss cooldown).rsiEntry = rsiEntry ∧
    (update_settings s ticker rsiEntry roiTarget roiStop amount access secret simulation
        maxLoss cooldown).roiTarget = roiTarget ∧
    (update_settings s ticker rsiEntry roiTarget roiStop amount access secret simulation
        maxLoss cooldown).roiStop = roiStop ∧
    (update_settings s ticker rsiEntry roiTarget roiStop amount access secret simulation
        maxLoss cooldown).amount = amount ∧
    (update_settings s ticker rsiEntry roiTarget roiStop amount access secret simulation
        maxLoss cooldown).simulationMode = simulation ∧
    (update_settings s ticker rsiEntry roiTarget roiStop amount access secret simulation
        maxLoss cooldown).maxLossCount = maxLoss ∧
    (update_settings s ticker rsiEntry roiTarget roiStop amount access secret simulation
        maxLoss cooldown).cooldownMinutes = cooldown :=
  ⟨rfl, rfl, rfl, rfl, rfl, rfl, rfl, rfl⟩

/-- C4: in simulation mode, from a flat ledger with quote balance `initQ`,
buying `amt` at price `P1` (entry signal, sufficient balance) and then
selling the whole position at price `P2` (an exit threshold satisfied) leaves
`quoteBalance = initQ − amt + (amt / P1) · P2` and `baseQuantity = 0`. -/
theorem c4_sim_round_trip (initQ amt P1 P2 entry r target stop : ℚ) (live : LiveBalances)
    (n1 n2 : ℕ) (rsi2 : EF)
    (hr : r ≤ entry) (hbal : amt ≤ initQ) (hP1 : 0 < P1) (hamt : 0 < amt)
    (hsell : target ≤ (P2 - P1) / P1 * 100 ∨ (P2 - P1) / P1 * 100 ≤ stop) :
    (processAutoTrading
        (processAutoTrading
          { initialWorker with
              simulationMode := true, autoActive := true, rsiEntry := entry,
              roiTarget := target, roiStop := stop, amount := amt,
              simBalanceKrw := initQ, simBalanceCoin := 0, simAvgBuyPrice := 0 }
          live P1 (EF.fin r) n1).1
        live P2 rsi2 n2).1.simBalanceKrw = initQ - amt + amt / P1 * P2 ∧
    (processAutoTrading
        (processAutoTrading
          { initialWorker with
              simulationMode := true, autoActive := true, rsiEntry := entry,
              roiTarget := target, roiStop := stop, amount := amt,
              simBalanceKrw := initQ, simBalanceCoin := 0, simAvgBuyPrice := 0 }
          live P1 (EF.fin r) n1).1
        live P2 rsi2 n2).1.simBalanceCoin = 0 := by
  rw [processAutoTrading_sim_buy _ live P1 r n1 rfl (le_refl 0) hr hbal hP1.ne']
  have hhold : (0:ℚ) < 0 + amt / P1 := by
    have := div_pos hamt hP1
    linarith
  have h2 := processAutoTrading_sim_sell
    { initialWorker with
        simulationMode := true, autoActive := true, rsiEntry := entry,
        roiTarget := target, roiStop := stop, amount := amt,
        simBalanceKrw := initQ - amt, simBalanceCoin := 0 + amt / P1, simAvgBuyPrice := P1 }
    live P2 rsi2 n2 rfl hhold hP1 hsell
  refine ⟨?_, ?_⟩
  · rw [h2.1]; ring
  · exact h2.2.1

/-- C4 witness: the spec scenario — 10,000,000 KRW, order amount 100,000,
buy at 1000, sell at 1006 — ends with 10,000,600 KRW and no coins. -/
theorem c4_witness :
    (processAutoTrading
        (processAutoTrading
          { initialWorker with
              simulationMode := true, autoActive := true, rsiEntry := 25,
              roiTarget := 1/2, roiStop := -3, amount := 100000,
              simBalanceKrw := 10000000, simBalanceCoin := 0, simAvgBuyPrice := 0 }
          ⟨0, 0, 0⟩ 1000 (EF.fin 20) 0).1
        ⟨0, 0, 0⟩ 1006 (EF.fin 50) 0).1.simBalanceKrw = 10000600 ∧
    (processAutoTrading
        (processAutoTrading
          { initialWorker with
              simulationMode := true, autoActive := true, rsiEntry := 25,
              roiTarget := 1/2, roiStop := -3, amount := 100000,
              simBalanceKrw := 10000000, simBalanceCoin := 0, simAvgBuyPrice := 0 }
          ⟨0, 0, 0⟩ 1000 (EF.fin 20) 0).1
        ⟨0, 0, 0⟩ 1006 (EF.fin 50) 0).1.simBalanceCoin = 0 := by
  have h := c4_sim_round_trip 10000000 100000 1000 1006 25 20 (1/2) (-3) ⟨0, 0, 0⟩ 0 0
    (EF.fin 50) (by norm_num) (by norm_num) (by norm_num) (by norm_num)
    (Or.inl (by norm_num))
  refine ⟨?_, h.2⟩
  rw [h.1]
  norm_num

/-- C5: on a tick where the worker is flat (its mode's holding test is false)
and the RSI passes the entry test, exactly one market buy of the configured
order amount is emitted when the available quote balance is at least the
order amount, and only the insufficient-balance message (no buy) when it is
below it. -/
theorem c5_flat_entry_buy (s : RSIWorker) (live : LiveBalances) (price : ℚ) (rsi : EF) (now : ℕ)
    (hflat : (if s.simulationMode then decide (0 < s.simBalanceCoin)
              else decide (5000 ≤ live.coin * price)) = false)
    (hrsi : rsi.leq s.rsiEntry = true)
    (hp : price ≠ 0) :
    (s.amount ≤ (if s.simulationMode then s.simBalanceKrw else live.krw) →
      (processAutoTrading s live price rsi now).2 =
        [if s.simulationMode then Act.simBuy price (s.amount / price) else Act.liveBuy s.amount] ∧
      countBuys (processAutoTrading s live price rsi now).2 = 1) ∧
    ((if s.simulationMode then s.simBalanceKrw else live.krw) < s.amount →
      (processAutoTrading s live price rsi now).2 = [Act.msgInsufficient] ∧
      countBuys (processAutoTrading s live price rsi now).2 = 0) := by
  constructor
  · intro hbal
    by_cases hsim : s.simulationMode = true
    · simp [hsim] at hflat hbal
      simp [processAutoTrading, hsim, hflat, hrsi, hbal, hp, countBuys, Act.isBuy]
    · simp [hsim] at hflat hbal
      simp [processAutoTrading, hsim, not_le.mpr hflat, hrsi, hbal, countBuys, Act.isBuy]
  · intro hbal
    by_cases hsim : s.simulationMode = true
    · simp [hsim] at hflat hbal
      simp [processAutoTrading, hsim, hflat, hrsi, not_le.mpr hbal, countBuys, Act.isBuy]
    · simp [hsim] at hflat hbal
      simp [processAutoTrading, hsim, not_le.mpr hflat, hrsi, not_le.mpr hbal, countBuys,
        Act.isBuy]

/-- C5 witness: flat simulated wallet, rsi 20 ≤ entry 25, balance
10,000,000 ≥ 100,000 — the decision step emits exactly the single buy of the
order amount (1000 coins at price 100). -/
theorem c5_witness :
    (processAutoTrading w5State ⟨0, 0, 0⟩ 100 (EF.fin 20) 0).2 = [Act.simBuy 100 1000] ∧
    countBuys (processAutoTrading w5State ⟨0, 0, 0⟩ 100 (EF.fin 20) 0).2 = 1 := by
  have h := c5_flat_entry_buy w5State ⟨0, 0, 0⟩ 100 (EF.fin 20) 0
    (by norm_num [w5State, initialWorker])
    (by norm_num [w5State, initialWorker, EF.leq])
    (by norm_num)
  have h2 := h.1 (by norm_num [w5State, initialWorker])
  constructor
  · rw [h2.1]
    norm_num [w5State, initialWorker]
  · exact h2.2

/-- C6: holding with positive average cost, a sell is emitted exactly when
`profit ≥ roi_target` or `profit ≤ roi_stop` (both boundaries inclusive), and
when the take-profit condition holds — even simultaneously with the stop-loss
condition — the sell's reason is take-profit, because that branch is
evaluated first. -/
theorem c6_sell_boundaries (s : RSIWorker) (live : LiveBalances) (price : ℚ) (rsi : EF)
    (now : ℕ) (avg profit : ℚ)
    (hhold : (if s.simulationMode then decide (0 < s.simBalanceCoin)
              else decide (5000 ≤ live.coin * price)) = true)
    (ha : avg = if s.simulationMode then s.simAvgBuyPrice else live.avgBuyPrice)
    (havg : 0 < avg)
    (hprofit : profit = (price - avg) / avg * 100) :
    (countSells (processAutoTrading s live price rsi now).2 = 1 ↔
      s.roiTarget ≤ profit ∨ profit ≤ s.roiStop) ∧
    (s.roiTarget ≤ profit →
      sellReasons (processAutoTrading s live price rsi now).2 = [Reason.takeProfit]) ∧
    (¬ s.roiTarget ≤ profit → profit ≤ s.roiStop →
      sellReasons (processAutoTrading s live price rsi now).2 = [Reason.stopLoss]) := by
  subst hprofit
  subst ha
  by_cases hsim : s.simulationMode = true
  · simp only [hsim, if_true] at hhold havg ⊢
    simp only [decide_eq_true_eq] at hhold
    by_cases hT : s.roiTarget ≤ (price - s.simAvgBuyPrice) / s.simAvgBuyPrice * 100 <;>
      by_cases hS : (price - s.simAvgBuyPrice) / s.simAvgBuyPrice * 100 ≤ s.roiStop <;>
        simp [processAutoTrading, hsim, hhold, havg, hT, hS, countSells, sellReasons,
          Act.isSell] <;> split <;> simp [Act.isSell]
  · simp only [hsim, if_false, Bool.false_eq_true] at hhold havg ⊢
    simp only [decide_eq_true_eq] at hhold
    by_cases hT : s.roiTarget ≤ (price - live.avgBuyPrice) / live.avgBuyPrice * 100 <;>
      by_cases hS : (price - live.avgBuyPrice) / live.avgBuyPrice * 100 ≤ s.roiStop <;>
        simp [processAutoTrading, hsim, hhold, havg, hT, hS, countSells, sellReasons,
          Act.isSell] <;> split <;> simp [Act.isSell]

/-- C6 witness: with `roi_target = roi_stop = 0` and profit exactly 0, both
boundaries are satisfied simultaneously; exactly one sell is emitted and its
reason is take-profit. -/
theorem c6_witness :
    countSells (processAutoTrading w6State ⟨0, 0, 0⟩ 100 (EF.fin 50) 0).2 = 1 ∧
    sellReasons (processAutoTrading w6State ⟨0, 0, 0⟩ 100 (EF.fin 50) 0).2 =
      [Reason.takeProfit] := by
  have h := c6_sell_boundaries w6State ⟨0, 0, 0⟩ 100 (EF.fin 50) 0 100 0
    (by norm_num [w6State, initialWorker])
    (by norm_num [w6State, initialWorker])
    (by norm_num)
    (by norm_num)
  constructor
  · exact (h.1).mpr (Or.inl (by norm_num [w6State, initialWorker]))
  · exact h.2.1 (by norm_num [w6State, initialWorker])

/-- C7: along any run of engine ticks, the cooldown invariant is preserved —
`cooldown_end_time` is set only while `max_loss_count` is positive and
`loss_count` has reached it — and with `max_loss_count = 0` the guard is
permanently disabled: the engine never enters the cooling state no matter how
many stop-loss exits occur. -/
theorem c7_cooldown_guard (s : RSIWorker) (inps : List TickInput) (hinv : CooldownInv s) :
    CooldownInv (runTicks s inps) ∧
    (s.maxLossCount = 0 → (runTicks s inps).cooldownEndTime = none) := by
  have hpres : CooldownInv (runTicks s inps) := by
    induction inps generalizing s with
    | nil => exact hinv
    | cons i rest ih => exact ih (tick s i).1 (tick_cooldownInv s i hinv)
  refine ⟨hpres, fun h0 => ?_⟩
  cases hcd : (runTicks s inps).cooldownEndTime with
  | none => rfl
  | some t =>
      have h := (hpres t hcd).1
      rw [runTicks_maxLossCount, h0] at h
      omega

/-- C7 witness: from the initial worker state (no cooldown, limit disabled)
one tick preserves the invariant and leaves `cooldown_end_time` unset. -/
theorem c7_witness :
    CooldownInv (runTicks initialWorker [w7Input]) ∧
    (initialWorker.maxLossCount = 0 →
      (runTicks initialWorker [w7Input]).cooldownEndTime = none) :=
  c7_cooldown_guard initialWorker [w7Input] (by intro t ht; simp [initialWorker] at ht)

/-- C8: while cooling (`now < cooldown_end_time`) a tick changes no state and
emits no buy and no sell, though the status (price/RSI polling) is still
reported; on the first tick where `now` has reached `cooldown_end_time` the
decision step resumes from the state with the cooldown cleared and
`loss_count` reset to 0 — in particular, if that tick issues no sell, it ends
with no cooldown set and a zero loss count. -/
theorem c8_cooling_no_trade (s : RSIWorker) (inp : TickInput) (t : ℕ)
    (hact : s.autoActive = true) (hcd : s.cooldownEndTime = some t)
    (hok : ¬ (s.simulationMode = true ∧ 0 < s.simBalanceCoin ∧ s.simAvgBuyPrice = 0)) :
    (inp.now < t →
      (tick s inp).1 = s ∧
      countBuys (tick s inp).2 = 0 ∧
      countSells (tick s inp).2 = 0 ∧
      (0 < priceOf inp.fetch →
        Act.statusUpdate (priceOf inp.fetch) (rsiOf inp) ∈ (tick s inp).2)) ∧
    (t ≤ inp.now →
      ((s.hasUpbit = true ∨ s.simulationMode = true) →
        tick s inp =
          ((processAutoTrading { s with cooldownEndTime := none, lossCount := 0 }
              inp.live (priceOf inp.fetch) (rsiOf inp) inp.now).1,
           candleLog inp ++ statusActs (priceOf inp.fetch) (rsiOf inp) ++
             Act.msgCooldownOver ::
               (processAutoTrading { s with cooldownEndTime := none, lossCount := 0 }
                   inp.live (priceOf inp.fetch) (rsiOf inp) inp.now).2)) ∧
      (countSells (tick s inp).2 = 0 →
        (tick s inp).1.cooldownEndTime = none ∧ (tick s inp).1.lossCount = 0)) := by
  constructor
  · intro hnow
    refine ⟨?_, ?_, ?_, ?_⟩
    · simp [tick, hok, hact, hcd, hnow]
    · simp [tick, hok, hact, hcd, hnow, countBuys_append, countBuys_cons,
        countBuys_candleLog, countBuys_statusActs, countBuys_nil, Act.isBuy]
    · simp [tick, hok, hact, hcd, hnow, countSells_append, countSells_cons,
        countSells_candleLog, countSells_statusActs, countSells_nil, Act.isSell]
    · intro hp
      simp [tick, hok, hact, hcd, hnow, statusActs, hp, hp.ne']
  · intro hnow
    have hnlt : ¬ inp.now < t := not_lt.mpr hnow
    constructor
    · intro hup
      simp [tick, hok, hact, hcd, hnlt, hup]
    · intro h0
      by_cases hup : s.hasUpbit = true ∨ s.simulationMode = true
      · simp only [tick, hok, hact, hcd, hnlt, hup, if_false, if_true, reduceIte] at h0 ⊢
        simp [countSells_append, countSells_cons, countSells_candleLog,
          countSells_statusActs, countSells_nil, Act.isSell, hup, hnlt] at h0 ⊢
        have hns := processAutoTrading_no_sell _ _ _ _ _ h0
        exact ⟨hns.2, hns.1⟩
      · simp [tick, hok, hact, hcd, hnlt, hup]

/-- C8 witness: cooling until minute 10, at minute 5 the tick leaves the
state unchanged and issues neither a buy nor a sell. -/
theorem c8_witness :
    (tick w8State w8Input).1 = w8State ∧
    countBuys (tick w8State w8Input).2 = 0 ∧
    countSells (tick w8State w8Input).2 = 0 := by
  have h := c8_cooling_no_trade w8State w8Input 10 rfl rfl
    (by simp [w8State, initialWorker])
  have h1 := h.1 (by norm_num [w8Input])
  exact ⟨h1.1, h1.2.1, h1.2.2.1⟩

/-- C9: the decision step takes its holding branch — observable by the
"holding" status message it always emits there — exactly when, in simulation
mode, `sim_balance_coin > 0`, and in live mode, the position's current value
`coin · price` is at least the fixed 5000 KRW dust threshold. -/
theorem c9_holding_predicate (s : RSIWorker) (live : LiveBalances) (price : ℚ) (rsi : EF)
    (now : ℕ) :
    hasHoldingMsg (processAutoTrading s live price rsi now).2 =
      (if s.simulationMode then decide (0 < s.simBalanceCoin)
       else decide (5000 ≤ live.coin * price)) := by
  by_cases hsim : s.simulationMode = true
  · by_cases hh : 0 < s.simBalanceCoin <;>
      simp [processAutoTrading, hsim, hh, hasHoldingMsg, Act.isHoldingMsg] <;>
        split_ifs <;> simp [hasHoldingMsg, Act.isHoldingMsg]
  · by_cases hh : 5000 ≤ live.coin * price <;>
      simp [processAutoTrading, hsim, hh, hasHoldingMsg, Act.isHoldingMsg] <;>
        split_ifs <;> simp [hasHoldingMsg, Act.isHoldingMsg]

/-- C10: in simulation mode every buy overwrites the stored average cost with
the fill price of that buy alone — the manual `buy_now` does so for any prior
position, and performs no quote-balance check (`sim_balance_krw` simply
decreases by the order amount, so it can go negative); the automatic buy
likewise sets the average cost to the current price. -/
theorem c10_avg_overwrite_no_balance_check (s : RSIWorker) (p lk : ℚ) (ok : Bool)
    (live : LiveBalances) (rsi : EF) (now : ℕ)
    (hsim : s.simulationMode = true) (hp : p ≠ 0) :
    ((buy_now s (some p) lk ok).1.simAvgBuyPrice = p ∧
     (buy_now s (some p) lk ok).1.simBalanceKrw = s.simBalanceKrw - s.amount ∧
     (buy_now s (some p) lk ok).1.simBalanceCoin = s.simBalanceCoin + s.amount / p) ∧
    (s.simBalanceCoin ≤ 0 → rsi.leq s.rsiEntry = true → s.amount ≤ s.simBalanceKrw →
      (processAutoTrading s live p rsi now).1.simAvgBuyPrice = p) := by
  constructor
  · simp [buy_now, hsim, hp]
  · intro hflat hr hbal
    simp [processAutoTrading, hsim, not_lt.mpr hflat, hr, hbal, hp]

/-- C10 witness: holding 2 coins bought at 7, a manual buy at price 5 with
only 50,000 KRW against a 100,000 KRW order amount overwrites the average
cost with 5 and drives the simulated balance negative. -/
theorem c10_witness :
    (buy_now w10State (some 5) 0 true).1.simAvgBuyPrice = 5 ∧
    (buy_now w10State (some 5) 0 true).1.simBalanceKrw < 0 := by
  have h := c10_avg_overwrite_no_balance_check w10State 5 0 true ⟨0, 0, 0⟩ (EF.fin 3) 0
    rfl (by norm_num)
  refine ⟨h.1.1, ?_⟩
  rw [h.1.2.1]
  norm_num [w10State, initialWorker]
